import Mathlib

/-!
Verification of the tidal-dl-ng download orchestrator (`tidal_dl_ng/download.py`)
and its session/config interface layer (`tidal_dl_ng/interface.py`) against the
natural-language specification.  The Python source is shallowly embedded:
pure functions become Lean functions, the external effects (network, file
system, random generator, progress display) become explicit oracle
parameters, and Python exceptions become `Except` errors.  Components of the
repository that are referenced but whose source is not part of the excerpt
(the `helper.format` sniffers, `model.tidal.StreamManifest`, the
`constants` enumerations) are modelled from the specification's words and
marked as such in their doc comments.
-/

/-! ## String helpers -/

/-- Membership test of `sub` in `l`, modelling the Python operator `sub in s`
for strings: true exactly when `sub` occurs as a contiguous substring. -/
def hasSubstr (sub : List Char) : List Char → Bool
  | [] => sub.isEmpty
  | c :: cs => sub.isPrefixOf (c :: cs) || hasSubstr sub cs

/-- Python `sub in s` on strings. -/
def strContains (s sub : String) : Bool :=
  hasSubstr sub.data s.data

/-! ## Download.get_file_extension (download.py lines 355-370) -/

/-- Embeds `Download.get_file_extension`: branch for ".flac" in the URL, then
".mp4" in the URL refined by the codec string, defaulting to ".m4a". -/
def get_file_extension (stream_url stream_codec : String) : String :=
  if strContains stream_url ".flac" then ".flac"
  else if strContains stream_url ".mp4" then
    if strContains stream_codec "ac4" || strContains stream_codec "mha1" then ".mp4"
    else if strContains stream_codec "flac" then ".flac"
    else ".m4a"
  else ".m4a"

/-- The file-extension rule exactly as the specification words it (claim C2):
".flac" whenever the URL contains ".flac" regardless of codec; otherwise for a
URL containing ".mp4": ".mp4" when the codec contains "ac4" or "mha1",
".flac" when the codec contains "flac" and neither "ac4" nor "mha1",
".m4a" otherwise; ".m4a" when the URL contains neither marker. -/
def spec_file_extension (url codec : String) : String :=
  if strContains url ".flac" then ".flac"
  else if strContains url ".mp4" && (strContains codec "ac4" || strContains codec "mha1") then ".mp4"
  else if strContains url ".mp4" && strContains codec "flac"
          && !(strContains codec "ac4" || strContains codec "mha1") then ".flac"
  else ".m4a"

/-- C2: for every stream URL and codec string, `get_file_extension` computes
exactly the extension described by the specification: ".flac" for URLs
containing ".flac" (codec irrelevant); for URLs containing ".mp4" the codec
decides between ".mp4" (codec has "ac4" or "mha1"), ".flac" (codec has
"flac" but not "ac4"/"mha1") and ".m4a"; and ".m4a" when the URL has
neither marker. -/
theorem get_file_extension_matches_spec (url codec : String) :
    get_file_extension url codec = spec_file_extension url codec := by
  unfold get_file_extension spec_file_extension
  cases hf : strContains url ".flac" <;>
    cases hm : strContains url ".mp4" <;>
      cases ha : strContains codec "ac4" <;>
        cases hh : strContains codec "mha1" <;>
          cases hc : strContains codec "flac" <;> simp

/-! ## Base64 and UTF-8 decoding (stdlib behaviour used by stream_manifest_parse) -/

/-- Value of one character of the standard base64 alphabet. -/
def b64val (c : Char) : Option Nat :=
  let n := c.toNat
  if 65 <= n && n <= 90 then some (n - 65)
  else if 97 <= n && n <= 122 then some (n - 71)
  else if 48 <= n && n <= 57 then some (n + 4)
  else if c = '+' then some 62
  else if c = '/' then some 63
  else none

/-- Models the stdlib `base64.b64decode` on its well-formed inputs (RFC 4648:
quartets over the standard alphabet, with `=` padding only at the end).
Returns the decoded byte sequence, or `none` for ill-formed input. -/
def b64decodeBytes : List Char → Option (List Nat)
  | [] => some []
  | a :: b :: c :: d :: rest =>
    match b64val a, b64val b with
    | some va, some vb =>
      if c = '=' then
        if d = '=' && rest.isEmpty then some [va * 4 + vb / 16] else none
      else
        match b64val c with
        | some vc =>
          if d = '=' then
            if rest.isEmpty then some [va * 4 + vb / 16, (vb % 16) * 16 + vc / 4] else none
          else
            match b64val d, b64decodeBytes rest with
            | some vd, some bs =>
              some ([va * 4 + vb / 16, (vb % 16) * 16 + vc / 4, (vc % 4) * 64 + vd] ++ bs)
            | _, _ => none
        | none => none
    | _, _ => none
  | _ => none

/-- Models the stdlib strict UTF-8 decoder (`bytes.decode("utf-8")`):
rejects stray continuation bytes, overlong encodings, surrogate code points
and code points above 0x10FFFF. -/
def utf8Decode : List Nat → Option (List Char)
  | [] => some []
  | b :: rest =>
    if b < 0x80 then (utf8Decode rest).map (fun cs => Char.ofNat b :: cs)
    else if b < 0xC2 then none
    else if b < 0xE0 then
      match rest with
      | b2 :: r =>
        if 0x80 <= b2 && b2 < 0xC0 then
          (utf8Decode r).map (fun cs => Char.ofNat ((b - 0xC0) * 64 + (b2 - 0x80)) :: cs)
        else none
      | [] => none
    else if b < 0xF0 then
      match rest with
      | b2 :: b3 :: r =>
        if 0x80 <= b2 && b2 < 0xC0 && 0x80 <= b3 && b3 < 0xC0 then
          let cp := (b - 0xE0) * 4096 + (b2 - 0x80) * 64 + (b3 - 0x80)
          if cp < 0x800 || (0xD800 <= cp && cp <= 0xDFFF) then none
          else (utf8Decode r).map (fun cs => Char.ofNat cp :: cs)
        else none
      | _ => none
    else if b < 0xF5 then
      match rest with
      | b2 :: b3 :: b4 :: r =>
        if 0x80 <= b2 && b2 < 0xC0 && 0x80 <= b3 && b3 < 0xC0 && 0x80 <= b4 && b4 < 0xC0 then
          let cp := (b - 0xF0) * 262144 + (b2 - 0x80) * 4096 + (b3 - 0x80) * 64 + (b4 - 0x80)
          if cp < 0x10000 || 0x10FFFF < cp then none
          else (utf8Decode r).map (fun cs => Char.ofNat cp :: cs)
        else none
      | _ => none
    else none

/-- `base64.b64decode(manifest).decode("utf-8")` from the head of
`Download.stream_manifest_parse` (download.py line 380). -/
def b64decodeText (s : String) : Option String :=
  (b64decodeBytes s.data).bind (fun bs => (utf8Decode bs).map String.mk)

/-! ## Content sniffing (helper.format, not part of the excerpt) -/

/-- Python `str.isspace` characters relevant to manifest payloads. -/
def isWsChar (c : Char) : Bool :=
  c = ' ' || c = '\t' || c = '\n' || c = '\r'

/-- Drops leading whitespace. -/
def skipWs : List Char → List Char
  | [] => []
  | c :: cs => if isWsChar c then skipWs cs else c :: cs

/-- Modelled from the spec: `helper.format.is_xml` — "looks like XML",
checking only top-level syntactic shape: the payload's leading
(non-whitespace) character is the markup character `<`. -/
def is_xml (s : String) : Bool :=
  (skipWs s.data).head? = some '<'

/-- Modelled from the spec: `helper.format.is_json` — "looks like JSON",
checking only top-level syntactic shape: the payload's leading
(non-whitespace) character is a brace. -/
def is_json (s : String) : Bool :=
  (skipWs s.data).head? = some '\x7b'

/-! ## JSON documents of the stream-manifest wire format

The specification's wire format (spec section 6) for JSON manifests is a flat
object whose fields are strings (`codecs`, `mimeType`, `encryptionType`,
`encryptionKey`) or arrays of strings (`urls`).  The stdlib JSON parser
invoked by `stream_manifest_parse` is modelled restricted to exactly these
documents; on anything outside this fragment the model reports a parse
error. -/

/-- A JSON value of the manifest wire format: a string or an array of
strings. -/
inductive JVal where
  | str (s : String)
  | arrStr (xs : List String)
deriving DecidableEq, Repr

/-- Parses a JSON string literal (escape-free, as manifest fields are). -/
def strChars : List Char → List Char → Option (String × List Char)
  | [], _ => none
  | c :: cs, acc =>
    if c = '\"' then some (String.mk acc.reverse, cs)
    else if c = '\\' then none
    else strChars cs (c :: acc)

/-- Expects a leading quote and parses the string literal behind it. -/
def parseStringLit : List Char → Option (String × List Char)
  | '\"' :: rest => strChars rest []
  | _ => none

/-- Parses the comma-separated items of a non-empty string array, up to and
including the closing bracket. -/
def parseArrItems : Nat → List Char → Option (List String × List Char)
  | 0, _ => none
  | fuel + 1, l =>
    match parseStringLit (skipWs l) with
    | none => none
    | some (s, rest) =>
      match skipWs rest with
      | ',' :: r2 =>
        match parseArrItems fuel r2 with
        | some (ss, r3) => some (s :: ss, r3)
        | none => none
      | ']' :: r2 => some ([s], r2)
      | _ => none

/-- Parses one JSON value of the wire format. -/
def parseJVal (fuel : Nat) (l : List Char) : Option (JVal × List Char) :=
  match skipWs l with
  | '\"' :: r =>
    match strChars r [] with
    | some (s, rest) => some (JVal.str s, rest)
    | none => none
  | '[' :: r =>
    match skipWs r with
    | ']' :: r2 => some (JVal.arrStr [], r2)
    | r2 =>
      match parseArrItems fuel r2 with
      | some (ss, rest) => some (JVal.arrStr ss, rest)
      | none => none
  | _ => none

/-- Parses the members of a non-empty JSON object, up to and including the
closing brace. -/
def parseMembers : Nat → List Char → Option (List (String × JVal) × List Char)
  | 0, _ => none
  | fuel + 1, l =>
    match parseStringLit (skipWs l) with
    | none => none
    | some (k, rest) =>
      match skipWs rest with
      | ':' :: r2 =>
        match parseJVal fuel r2 with
        | none => none
        | some (v, r3) =>
          match skipWs r3 with
          | ',' :: r4 =>
            match parseMembers fuel r4 with
            | some (ms, r5) => some ((k, v) :: ms, r5)
            | none => none
          | '\x7d' :: r4 => some ([(k, v)], r4)
          | _ => none
      | _ => none

/-- Models `json.loads` on the wire-format fragment: a whole-input JSON
object, returned as its member list in source order. -/
def parseJson (s : String) : Option (List (String × JVal)) :=
  match skipWs s.data with
  | '\x7b' :: r =>
    match skipWs r with
    | '\x7d' :: r2 => if (skipWs r2).isEmpty then some [] else none
    | r2 =>
      match parseMembers (s.length + 1) r2 with
      | some (ms, rest) => if (skipWs rest).isEmpty then some ms else none
      | none => none
  | _ => none

/-- Python dict lookup on the parsed member list: as in `dict(...)`, a later
duplicate key overrides an earlier one. -/
def lookupLast : List (String × JVal) → String → Option JVal
  | [], _ => none
  | (k', v) :: rest, k =>
    match lookupLast rest k with
    | some r => some r
    | none => if k' = k then some v else none

/-! ## StreamManifest and stream_manifest_parse (download.py lines 350-353, 378-415) -/

/-- Modelled from the spec: `model.tidal.StreamManifest` — the resolved
description of a fetchable media stream: stream URL, codec identifier,
resolved file extension, encryption type tag ("NONE" or a named scheme),
optional encryption key, and MIME type. -/
structure StreamManifest where
  stream_url : String
  codecs : String
  file_extension : String
  encryption_type : String
  encryption_key : Option String
  mime_type : String
deriving DecidableEq, Repr

/-- Network failure kinds of the HTTP client: an HTTP status error (the
`requests.exceptions.HTTPError` raised by `raise_for_status`), a timeout,
or a connection failure.  Only the first is an `HTTPError` in Python's
exception hierarchy. -/
inductive NetError where
  | httpStatus
  | timedOut
  | connFailed
deriving DecidableEq, Repr

/-- Python exceptions raised by the embedded operations. -/
inductive PyErr where
  | mediaMissing
  | mediaUnknown
  | unknownManifestFormat
  | decodeError
  | jsonError
  | keyError (k : String)
  | typeError
  | indexError
  | net (e : NetError)
  | nameErr (n : String)
  | assertionErr
  | tomlErr (hint : Bool)
deriving DecidableEq, Repr

/-- Embeds `Download.is_encrypted` (download.py lines 350-353): the type
string differs from the literal "NONE". -/
def is_encrypted (encryption_type : String) : Bool :=
  encryption_type != "NONE"

/-- Reads a string-typed member of the manifest object, as the subscript
`stream_manifest[k]` does for the scalar fields. -/
def getStr (o : List (String × JVal)) (k : String) : Except PyErr String :=
  match lookupLast o k with
  | none => Except.error (PyErr.keyError k)
  | some (JVal.str s) => Except.ok s
  | some (JVal.arrStr _) => Except.error PyErr.typeError

/-- Reads `stream_manifest["urls"][0]`: the member must be an array and the
subscript 0 must exist. -/
def getFirstUrl (o : List (String × JVal)) : Except PyErr String :=
  match lookupLast o "urls" with
  | none => Except.error (PyErr.keyError "urls")
  | some (JVal.str _) => Except.error PyErr.typeError
  | some (JVal.arrStr []) => Except.error PyErr.indexError
  | some (JVal.arrStr (u :: _)) => Except.ok u

/-- Embeds `Download.stream_manifest_parse` (download.py lines 378-415).
The payload is base64-decoded to text; an XML-shaped payload is handed to
the DASH extraction (the external `xml.etree` traversal of fixed nested
positions, abstracted as the oracle `xmlExtract` returning stream URL,
codec and MIME type) with encryption assumed absent; a JSON-shaped payload
is parsed and its fields read in source order (`urls[0]`, `codecs`,
`mimeType`, `encryptionType`, and `encryptionKey` only when encrypted);
anything else raises `UnknownManifestFormat`. -/
def stream_manifest_parse (xmlExtract : String → Except PyErr (String × String × String))
    (manifest : String) : Except PyErr StreamManifest :=
  match b64decodeText manifest with
  | none => Except.error PyErr.decodeError
  | some manifest_parsed =>
    if is_xml manifest_parsed then
      match xmlExtract manifest_parsed with
      | Except.error e => Except.error e
      | Except.ok (stream_url, codecs, mime_type) =>
        Except.ok
          { stream_url := stream_url
            codecs := codecs
            file_extension := get_file_extension stream_url codecs
            encryption_type := "NONE"
            encryption_key := none
            mime_type := mime_type }
    else if is_json manifest_parsed then
      match parseJson manifest_parsed with
      | none => Except.error PyErr.jsonError
      | some obj =>
        match getFirstUrl obj with
        | Except.error e => Except.error e
        | Except.ok stream_url =>
          match getStr obj "codecs" with
          | Except.error e => Except.error e
          | Except.ok codecs =>
            match getStr obj "mimeType" with
            | Except.error e => Except.error e
            | Except.ok mime_type =>
              match getStr obj "encryptionType" with
              | Except.error e => Except.error e
              | Except.ok encryption_type =>
                if is_encrypted encryption_type then
                  match getStr obj "encryptionKey" with
                  | Except.error e => Except.error e
                  | Except.ok key =>
                    Except.ok
                      { stream_url := stream_url
                        codecs := codecs
                        file_extension := get_file_extension stream_url codecs
                        encryption_type := encryption_type
                        encryption_key := some key
                        mime_type := mime_type }
                else
                  Except.ok
                    { stream_url := stream_url
                      codecs := codecs
                      file_extension := get_file_extension stream_url codecs
                      encryption_type := encryption_type
                      encryption_key := none
                      mime_type := mime_type }
    else Except.error PyErr.unknownManifestFormat

/-! ## Concrete manifest payloads (used by witnesses and counterexamples) -/

/-- Base64 encoding of the JSON payload
`\x7b"urls":["https://x/y.flac"],"codecs":"flac","mimeType":"audio/flac","encryptionType":"NONE"\x7d`. -/
def manifestB64Plain : String :=
  "eyJ1cmxzIjpbImh0dHBzOi8veC95LmZsYWMiXSwiY29kZWNzIjoiZmxhYyIsIm1pbWVUeXBlIjoiYXVkaW8vZmxhYyIsImVuY3J5cHRpb25UeXBlIjoiTk9ORSJ9"

/-- Base64 encoding of the same payload with `encryptionType` set to
`AES_CTR` and an `encryptionKey` field `SECRETKEY`. -/
def manifestB64Encrypted : String :=
  "eyJ1cmxzIjpbImh0dHBzOi8veC95LmZsYWMiXSwiY29kZWNzIjoiZmxhYyIsIm1pbWVUeXBlIjoiYXVkaW8vZmxhYyIsImVuY3J5cHRpb25UeXBlIjoiQUVTX0NUUiIsImVuY3J5cHRpb25LZXkiOiJTRUNSRVRLRVkifQ=="

/-- A concrete DASH-extraction oracle for witnesses: the XML branch is never
reached by the JSON payloads, so any value serves. -/
def xmlOracle0 : String → Except PyErr (String × String × String) :=
  fun _ => Except.error PyErr.typeError

set_option maxRecDepth 8192

/-- The manifest produced from `manifestB64Encrypted`. -/
def manifestEncParsed : StreamManifest :=
  { stream_url := "https://x/y.flac", codecs := "flac", file_extension := ".flac",
    encryption_type := "AES_CTR", encryption_key := some "SECRETKEY",
    mime_type := "audio/flac" }

/-- C1: `stream_manifest_parse` on the base64-encoded JSON payload with
`encryptionType` "NONE" yields the manifest with stream URL
`https://x/y.flac` (the first element of `urls`), extension `.flac`,
encryption type "NONE" and no key; on the same payload with a non-"NONE"
`encryptionType` and an `encryptionKey` field it yields a manifest carrying
that key; and on every input whose base64 decoding is neither recognizable
XML nor JSON it fails with `UnknownManifestFormat`. -/
theorem stream_manifest_parse_json_and_unknown_format :
    (∀ xmlExtract, stream_manifest_parse xmlExtract manifestB64Plain =
      Except.ok
        { stream_url := "https://x/y.flac", codecs := "flac", file_extension := ".flac",
          encryption_type := "NONE", encryption_key := none, mime_type := "audio/flac" })
    ∧ (∀ xmlExtract, stream_manifest_parse xmlExtract manifestB64Encrypted =
        Except.ok manifestEncParsed)
    ∧ (∀ xmlExtract s text, b64decodeText s = some text → is_xml text = false →
        is_json text = false →
        stream_manifest_parse xmlExtract s = Except.error PyErr.unknownManifestFormat) := by
  refine ⟨fun xo => rfl, fun xo => rfl, ?_⟩
  intro xo s text hd hx hj
  unfold stream_manifest_parse
  rw [hd]
  simp [hx, hj]

/-- Witness for C1: the concrete input "aGVsbG8=" decodes to "hello", which
is neither XML nor JSON, and parsing it indeed fails with the
unknown-manifest-format error. -/
theorem stream_manifest_parse_json_and_unknown_format_witness :
    stream_manifest_parse xmlOracle0 "aGVsbG8=" = Except.error PyErr.unknownManifestFormat :=
  stream_manifest_parse_json_and_unknown_format.2.2 xmlOracle0 "aGVsbG8=" "hello" rfl rfl rfl

/-- C3: `is_encrypted` is false exactly on the literal "NONE", and every
`StreamManifest` that `stream_manifest_parse` produces is encrypted (its
encryption type differs from "NONE") if and only if its encryption key is
non-absent — in particular an encrypted manifest always carries a key. -/
theorem stream_manifest_encrypted_iff_key :
    (∀ t, is_encrypted t = false ↔ t = "NONE")
    ∧ ∀ xmlExtract s m, stream_manifest_parse xmlExtract s = Except.ok m →
        (is_encrypted m.encryption_type = true ↔ m.encryption_key ≠ none) := by
  constructor
  · intro t; simp [is_encrypted]
  intro xo s m h
  unfold stream_manifest_parse at h
  repeat' split at h
  all_goals
    first
      | (injection h with h2; subst h2; simp_all [is_encrypted])
      | (injection h)

/-- Witness for C3: instantiated at the concrete encrypted payload, whose
parsed manifest is encrypted and carries the key. -/
theorem stream_manifest_encrypted_iff_key_witness :
    is_encrypted manifestEncParsed.encryption_type = true ↔
      manifestEncParsed.encryption_key ≠ none :=
  stream_manifest_encrypted_iff_key.2 xmlOracle0 manifestB64Encrypted manifestEncParsed rfl

/-! ## Video rendition selection (download.py lines 59-85)

`Download._video` scans the variant playlist in listing order with a running
maximum `resolution_best` (initially 0): whenever a rendition strictly
exceeds every earlier resolution it becomes the selection, and the scan
breaks early only when such a new maximum also equals the configured
`quality_video` value.  The loop is embedded below over the renditions'
vertical resolutions; the returned value is the resolution of the selected
rendition (`none` when no rendition ever exceeded 0, leaving
`m3u8_playlist` false). -/

/-- The selection loop of `Download._video` (download.py lines 66-73). -/
def videoSelect (quality : Nat) : List Nat → Nat → Option Nat → Option Nat
  | [], _, sel => sel
  | r :: rs, best, sel =>
    if best < r then
      if quality = r then some r
      else videoSelect quality rs r (some r)
    else videoSelect quality rs best sel

/-- The rendition `Download._video` selects from a variant playlist listing
the given vertical resolutions, under the configured video quality. -/
def video_rendition_selected (quality : Nat) (rs : List Nat) : Option Nat :=
  videoSelect quality rs 0 none

theorem videoSelect_max (quality : Nat) (rs : List Nat) :
    ∀ (best : Nat) (sel : Option Nat) (r : Nat), quality ∉ rs →
      videoSelect quality rs best sel = some r →
      (r ∈ rs ∧ best < r ∧ ∀ x ∈ rs, x ≤ r) ∨ (sel = some r ∧ ∀ x ∈ rs, x ≤ best) := by
  induction rs with
  | nil =>
    intro best sel r _ h
    right
    exact ⟨h, by simp⟩
  | cons r0 rs ih =>
    intro best sel r hq h
    unfold videoSelect at h
    rw [List.mem_cons] at hq
    push_neg at hq
    obtain ⟨hq0, hqrs⟩ := hq
    by_cases hb : best < r0
    · rw [if_pos hb, if_neg hq0] at h
      rcases ih r0 (some r0) r hqrs h with ⟨hm, hlt, hle⟩ | ⟨hsel, hle⟩
      · left
        refine ⟨List.mem_cons_of_mem _ hm, lt_trans hb hlt, ?_⟩
        intro x hx
        rcases List.mem_cons.mp hx with hx | hx
        · exact hx ▸ le_of_lt hlt
        · exact hle x hx
      · injection hsel with hsel
        subst hsel
        left
        refine ⟨List.mem_cons_self _ _, hb, ?_⟩
        intro x hx
        rcases List.mem_cons.mp hx with hx | hx
        · exact le_of_eq hx
        · exact hle x hx
    · rw [if_neg hb] at h
      push_neg at hb
      rcases ih best sel r hqrs h with ⟨hm, hlt, hle⟩ | ⟨hsel, hle⟩
      · left
        refine ⟨List.mem_cons_of_mem _ hm, hlt, ?_⟩
        intro x hx
        rcases List.mem_cons.mp hx with hx | hx
        · exact hx ▸ le_trans hb (le_of_lt hlt)
        · exact hle x hx
      · right
        refine ⟨hsel, ?_⟩
        intro x hx
        rcases List.mem_cons.mp hx with hx | hx
        · exact hx ▸ hb
        · exact hle x hx

theorem videoSelect_stop (quality : Nat) (rest : List Nat) :
    ∀ (pre : List Nat) (best : Nat) (sel : Option Nat), (∀ p ∈ pre, p < quality) →
      best < quality →
      videoSelect quality (pre ++ quality :: rest) best sel = some quality := by
  intro pre
  induction pre with
  | nil =>
    intro best sel _ hb
    rw [List.nil_append]
    unfold videoSelect
    rw [if_pos hb, if_pos rfl]
  | cons p pre ih =>
    intro best sel hp hb
    rw [List.cons_append]
    unfold videoSelect
    have hpq : p < quality := hp p (List.mem_cons_self _ _)
    by_cases hbp : best < p
    · rw [if_pos hbp, if_neg (Nat.ne_of_gt hpq)]
      exact ih p (some p) (fun x hx => hp x (List.mem_cons_of_mem _ hx)) hpq
    · rw [if_neg hbp]
      exact ih best sel (fun x hx => hp x (List.mem_cons_of_mem _ hx)) hb

/-- Counterexample to C4 as stated: with renditions listed as
[1080, 720] and a configured target of 720, an exact match to the target is
present, yet the selection is the 1080 rendition — the loop only considers
a rendition (and only stops at an exact match) when it strictly exceeds
every earlier resolution, so an exact match listed after a higher
resolution is never preferred. -/
theorem video_rendition_selection_counterexample :
    720 ∈ [1080, 720]
    ∧ video_rendition_selected 720 [1080, 720] = some 1080
    ∧ video_rendition_selected 720 [1080, 720] ≠ some 720 := by
  decide

/-- C4 amended: the selected rendition is the greatest vertical resolution
in the listing (first occurrence), and the scan stops early at an exact
match of the configured target only when that match strictly exceeds every
earlier listed resolution; with no exact match at all the
highest-resolution rendition found is selected, and on the ascending
listing 480, 720, 1080 with target 720 the 720 rendition is selected with
the scan stopping there. -/
theorem video_rendition_selection_amended :
    (∀ quality rs r, quality ∉ rs → video_rendition_selected quality rs = some r →
      r ∈ rs ∧ ∀ x ∈ rs, x ≤ r)
    ∧ (∀ quality pre rest, (∀ p ∈ pre, p < quality) → 0 < quality →
        video_rendition_selected quality (pre ++ quality :: rest) = some quality)
    ∧ video_rendition_selected 720 [480, 720, 1080] = some 720 := by
  refine ⟨?_, ?_, by decide⟩
  · intro q rs r hq h
    rcases videoSelect_max q rs 0 none r hq h with ⟨hm, _, hle⟩ | ⟨hsel, _⟩
    · exact ⟨hm, hle⟩
    · exact Option.noConfusion hsel
  · intro q pre rest hp h0
    exact videoSelect_stop q rest pre 0 none hp h0

/-- Witness for C4 amended: on the concrete listing 480, 720(target), 1080
the early-stop clause applies and the 720 rendition is selected. -/
theorem video_rendition_selection_amended_witness :
    video_rendition_selected 720 ([480] ++ 720 :: [1080]) = some 720 :=
  video_rendition_selection_amended.2.1 720 [480] [1080] (by decide) (by decide)

/-! ## Media model and observable events of the orchestrator

The remaining operations are effectful.  External effects (template
rendering, path handling, file existence, the catalog client's stream
handle, HTTP fetches) are supplied as oracle parameters, and the observable
actions (log lines, decryption, metadata writing, file moves, sleeps) are
recorded in an event trace returned alongside the result. -/

/-- Observable actions of the embedded operations. -/
inductive Ev where
  | info (msg : String)
  | debugMsg (msg : String)
  | logErr (e : NetError)
  | decryptEv
  | metadataEv
  | moveEv (src dst : String)
  | convertEv (src dst : String)
  | itemCall (idx : Nat) (id : String)
  | sleepEv (tenths : Nat)
  | printMsg (msg : String)
  | loginEv
  | logoutEv
  | parseAttempt
deriving DecidableEq, Repr

/-- Modelled from the spec: `constants.MediaType` — the closed tag set used
to select catalog constructors and download strategies. -/
inductive MediaType where
  | Track
  | Video
  | Album
  | Playlist
  | Mix
deriving DecidableEq, Repr

/-- Modelled from the spec: `constants.SkipExisting` — Disabled means always
(re)download, ExtensionIgnore treats a same-basename file under any
extension as present. -/
inductive SkipExisting where
  | Disabled
  | ExtensionIgnore
deriving DecidableEq, Repr

/-- Python truthiness of the policy value: the source guards the existence
check with `if self.skip_existing:`, and the Disabled member (the
constructor default) is falsy. -/
def SkipExisting.truthy : SkipExisting → Bool
  | SkipExisting.Disabled => false
  | SkipExisting.ExtensionIgnore => true

/-- Kind of a resolved catalog media object. -/
inductive MediaKind where
  | track
  | video
deriving DecidableEq, Repr

/-- A resolved Track or Video catalog reference: the orchestrator reads only
its kind, identifier and display name. -/
structure Media where
  kind : MediaKind
  id : String
  name : String
deriving DecidableEq, Repr

/-- Modelled from the spec: `helper.tidal.name_builder_item` — a short
human-readable label for the media item. -/
def name_builder_item (m : Media) : String :=
  m.name

/-- Embeds `Download.instantiate_media` (download.py lines 87-97): a Track or
Video constructor per tag, `MediaUnknown` for any other tag.  The catalog
object's display name is opaque at construction; it is modelled by the id. -/
def instantiate_media (media_type : MediaType) (id_media : String) : Except PyErr Media :=
  match media_type with
  | MediaType.Track => Except.ok { kind := MediaKind.track, id := id_media, name := id_media }
  | MediaType.Video => Except.ok { kind := MediaKind.video, id := id_media, name := id_media }
  | _ => Except.error PyErr.mediaUnknown

/-- External-effect oracles of a single-item download.  `fetchStream` is the
combined outcome of the streaming GET, `raise_for_status` and the chunk
loop of `_audio_stream` (`none` = all bytes written); `stream` is
`media.stream().manifest` from the catalog client; `fetchSegment` is one
video segment GET; `renditions` are the variant playlist's vertical
resolutions and `quality_video` the configured target. -/
structure ItemEnv where
  format_path_media : String → Media → String
  joinPath : String → String → String
  sanitize : String → String
  check_file_exists : String → Bool → Bool
  stream : Media → Except NetError String
  xmlExtract : String → Except PyErr (String × String × String)
  fetchStream : String → Option NetError
  renditions : List Nat
  quality_video : Nat
  segments : List String
  fetchSegment : String → Option NetError
  tmpFile : String

/-! ## Download._audio_stream (download.py lines 173-232) -/

/-- The tail of `_audio_stream` behind the try/except: decryption when the
manifest is encrypted (into a `_decrypted` sibling of the temp file),
then the metadata write; returns the produced working path. -/
def audio_finalize (sm : StreamManifest) (path_file : String) : List Ev × String :=
  if is_encrypted sm.encryption_type then
    ([Ev.decryptEv, Ev.metadataEv], path_file ++ "_decrypted")
  else ([Ev.metadataEv], path_file)

/-- Embeds `Download._audio_stream`: the streaming fetch runs under
`except HTTPError` — an HTTP status error is logged via the logger callable
and the method falls through to decryption/tagging of whatever was written;
every other exception (timeout, connection failure) propagates; on success
or a caught error the decrypt/tag tail runs and its path is returned. -/
def audio_stream (fetch : String → Option NetError) (sm : StreamManifest)
    (path_file : String) : List Ev × Except NetError String :=
  match fetch sm.stream_url with
  | some e =>
    if e = NetError.httpStatus then
      let fin := audio_finalize sm path_file
      (Ev.logErr e :: fin.1, Except.ok fin.2)
    else ([], Except.error e)
  | none =>
    let fin := audio_finalize sm path_file
    (fin.1, Except.ok fin.2)

/-! ## Download._video segment downloads (download.py lines 75-83) -/

/-- The segment loop of `_video`: each segment URI is fetched in order and
its bytes appended; a request failure propagates (no handler). -/
def fetchSegments (fetch : String → Option NetError) : List String → Except NetError Unit
  | [] => Except.ok ()
  | s :: ss =>
    match fetch s with
    | some e => Except.error e
    | none => fetchSegments fetch ss

/-- Embeds `Download._video` over the oracles: rendition selection followed
by the segment loop; returns the written path, or `none` when no rendition
was selected (the function then returns None). -/
def video_download_file (env : ItemEnv) (path_file : String) :
    Except NetError (Option String) :=
  match video_rendition_selected env.quality_video env.renditions with
  | none => Except.ok none
  | some _ =>
    match fetchSegments env.fetchSegment env.segments with
    | Except.error e => Except.error e
    | Except.ok _ => Except.ok (some path_file)

/-- `os.path.splitext(p)[0]`: the path without its final extension. -/
def splitextBase (s : String) : String :=
  match (s.data.reverse.takeWhile (fun c => c != '.')).length with
  | n =>
    if n = s.data.length then s
    else String.mk (s.data.take (s.data.length - n - 1))

/-! ## Download.item (download.py lines 99-171) -/

/-- Embeds `Download.item`.  Control flow of the source, in order: resolve
the media reference (an id+type pair — both truthy — instantiates it; with
neither a reference nor a usable pair, `MediaMissing`); return
`(False, "")` with an info log when the video-download flag is unset;
render and join the destination path; for tracks fetch the stream handle
and parse its manifest; sanitize the path; consult the skip-existing policy;
then either log the skip and report `(False, path)`, or perform the
track/video download into the temp file and move the result, reporting
`(True, path)`.  The returned pair is (download occurred, final path). -/
def item (env : ItemEnv) (path_base file_template : String) (media : Option Media)
    (media_id : Option String) (media_type : Option MediaType) (video_download : Bool)
    (skip_existing : SkipExisting) : List Ev × Except PyErr (Bool × String) :=
  let fallback : Except PyErr Media :=
    match media with
    | some m => Except.ok m
    | none => Except.error PyErr.mediaMissing
  let resolved : Except PyErr Media :=
    match media_id, media_type with
    | some mid, some mt => if mid = "" then fallback else instantiate_media mt mid
    | _, _ => fallback
  match resolved with
  | Except.error e => ([], Except.error e)
  | Except.ok m =>
    if video_download = false then
      ([Ev.info ("Video downloads are deactivated (see settings). Skipping video: "
          ++ name_builder_item m)],
        Except.ok (false, ""))
    else
      let file_name_relative := env.format_path_media file_template m
      let path_file0 := env.joinPath path_base file_name_relative
      let manifestRes : Except PyErr (Option StreamManifest) :=
        if m.kind = MediaKind.track then
          match env.stream m with
          | Except.error e => Except.error (PyErr.net e)
          | Except.ok raw =>
            match stream_manifest_parse env.xmlExtract raw with
            | Except.error e => Except.error e
            | Except.ok sm => Except.ok (some sm)
        else Except.ok none
      match manifestRes with
      | Except.error e => ([], Except.error e)
      | Except.ok smOpt =>
        let path_file1 := env.sanitize path_file0
        let download_skip :=
          if skip_existing.truthy then
            env.check_file_exists path_file1 (skip_existing = SkipExisting.ExtensionIgnore)
          else false
        if download_skip then
          ([Ev.debugMsg ("Download skipped, since file exists: \x27" ++ path_file1 ++ "\x27")],
            Except.ok (false, path_file1))
        else
          match m.kind with
          | MediaKind.track =>
            match smOpt with
            | some sm =>
              let res := audio_stream env.fetchStream sm env.tmpFile
              match res.2 with
              | Except.error e => (res.1, Except.error (PyErr.net e))
              | Except.ok tmpResult =>
                (res.1 ++ [Ev.moveEv tmpResult path_file1], Except.ok (true, path_file1))
            | none =>
              -- unreachable: a track parsed its manifest above
              ([], Except.error PyErr.typeError)
          | MediaKind.video =>
            match video_download_file env env.tmpFile with
            | Except.error e => ([], Except.error (PyErr.net e))
            | Except.ok none =>
              -- `_video` returned None; the unconditional ffmpeg conversion of
              -- None then fails
              ([], Except.error PyErr.typeError)
            | Except.ok (some tmpV) =>
              let tmpConv := splitextBase tmpV ++ ".mp4"
              let path_file2 := splitextBase path_file1 ++ ".mp4"
              ([Ev.convertEv tmpV tmpConv, Ev.moveEv tmpConv path_file2],
                Except.ok (true, path_file2))

/-! ## Concrete environments for witnesses and counterexamples -/

/-- A concrete item environment whose oracles all succeed: the stream
manifest is the plain JSON payload, every fetch succeeds, no file exists. -/
def itemEnv0 : ItemEnv :=
  { format_path_media := fun t _ => t
    joinPath := fun a b => a ++ "/" ++ b
    sanitize := fun p => p
    check_file_exists := fun _ _ => false
    stream := fun _ => Except.ok manifestB64Plain
    xmlExtract := xmlOracle0
    fetchStream := fun _ => none
    renditions := [480, 720, 1080]
    quality_video := 720
    segments := ["s1"]
    fetchSegment := fun _ => none
    tmpFile := "tmp" }

/-- A concrete track reference. -/
def trackMedia0 : Media := { kind := MediaKind.track, id := "42", name := "Song" }

/-- The manifest produced from `manifestB64Plain`. -/
def manifestPlainParsed : StreamManifest :=
  { stream_url := "https://x/y.flac", codecs := "flac", file_extension := ".flac",
    encryption_type := "NONE", encryption_key := none, mime_type := "audio/flac" }

/-- Counterexample to C5 as stated: a track handed to `item` with the
video-download flag disabled is not downloaded either — the early return
`(False, "")` fires before any isinstance check, for tracks and videos
alike, so the flag does not "only suppress videos". -/
theorem item_video_flag_counterexample :
    (item itemEnv0 "base" "tpl" (some trackMedia0) none none false SkipExisting.Disabled).2
      = Except.ok (false, "")
    ∧ trackMedia0.kind = MediaKind.track
    ∧ ((false : Bool), "") ≠ ((true : Bool), "") := by
  refine ⟨rfl, rfl, by decide⟩

/-- C5 amended: when `item` is invoked with the video-download flag
disabled it logs the skip message and returns `(False, "")` without error
for every resolved media — video or track alike (the flag suppresses all
downloads in `item`, not only videos); with the flag enabled a track
proceeds to download and, when its stream fetch succeeds, reports
`(True, sanitized path)`. -/
theorem item_video_flag_amended :
    (∀ env path_base file_template m sk,
      item env path_base file_template (some m) none none false sk =
        ([Ev.info ("Video downloads are deactivated (see settings). Skipping video: "
            ++ name_builder_item m)],
          Except.ok (false, "")))
    ∧ (∀ env path_base file_template m raw sm,
        m.kind = MediaKind.track → env.stream m = Except.ok raw →
        stream_manifest_parse env.xmlExtract raw = Except.ok sm →
        env.fetchStream sm.stream_url = none →
        (item env path_base file_template (some m) none none true SkipExisting.Disabled).2 =
          Except.ok (true, env.sanitize (env.joinPath path_base
            (env.format_path_media file_template m)))) := by
  constructor
  · intro env pb ft m sk
    rfl
  · intro env pb ft m raw sm hk hs hp hf
    unfold item
    simp [hk, hs, hp, audio_stream, hf, SkipExisting.truthy]

/-- Witness for C5 amended: the concrete track in the all-success
environment, flag enabled, is downloaded to its rendered path. -/
theorem item_video_flag_amended_witness :
    (item itemEnv0 "base" "tpl" (some trackMedia0) none none true SkipExisting.Disabled).2 =
      Except.ok (true, itemEnv0.sanitize (itemEnv0.joinPath "base"
        (itemEnv0.format_path_media "tpl" trackMedia0))) :=
  item_video_flag_amended.2 itemEnv0 "base" "tpl" trackMedia0 manifestB64Plain
    manifestPlainParsed rfl rfl rfl rfl

/-- Counterexample to C6 as stated: a timeout on the audio stream fetch is
a `requests.exceptions.Timeout`, not an `HTTPError`, so the
`except HTTPError` handler does not catch it — the call aborts with the
error and nothing is logged, contradicting "every network error ...
including ... timeout ... is caught at the point of occurrence and
logged". -/
theorem audio_stream_timeout_counterexample :
    audio_stream (fun _ => some NetError.timedOut) manifestEncParsed "tmp"
      = ([], Except.error NetError.timedOut)
    ∧ ([] : List Ev) ≠ [Ev.logErr NetError.timedOut] := by
  refine ⟨rfl, by decide⟩

/-- C6 amended: during the audio stream only the HTTP status error raised
by `raise_for_status` (an `HTTPError`) is caught — it is logged via the
logger callable and the method proceeds to the decryption/tagging tail on
whatever bytes were written; every other network error of the stream fetch
(timeout, connection failure) propagates, as do network errors of the
manifest fetch inside `item` and of the video segment loop. -/
theorem audio_stream_error_handling_amended :
    (∀ fetch sm p, fetch sm.stream_url = some NetError.httpStatus →
      audio_stream fetch sm p =
        (Ev.logErr NetError.httpStatus :: (audio_finalize sm p).1,
          Except.ok (audio_finalize sm p).2))
    ∧ (∀ fetch sm p e, fetch sm.stream_url = some e → e ≠ NetError.httpStatus →
        audio_stream fetch sm p = ([], Except.error e))
    ∧ (∀ env path_base file_template m e sk, m.kind = MediaKind.track →
        env.stream m = Except.error e →
        item env path_base file_template (some m) none none true sk =
          ([], Except.error (PyErr.net e)))
    ∧ (∀ fetch pre s rest e, (∀ x ∈ pre, fetch x = none) → fetch s = some e →
        fetchSegments fetch (pre ++ s :: rest) = Except.error e) := by
  refine ⟨?_, ?_, ?_, ?_⟩
  · intro fetch sm p h
    unfold audio_stream
    rw [h]
    simp
  · intro fetch sm p e h hne
    unfold audio_stream
    rw [h]
    simp [hne]
  · intro env pb ft m e sk hk hs
    unfold item
    simp [hk, hs]
  · intro fetch pre s rest e hpre hs
    induction pre with
    | nil =>
      rw [List.nil_append]
      unfold fetchSegments
      rw [hs]
    | cons x xs ih =>
      rw [List.cons_append]
      unfold fetchSegments
      rw [hpre x (List.mem_cons_self _ _)]
      exact ih (fun y hy => hpre y (List.mem_cons_of_mem _ hy))

/-- Witness for C6 amended: a concrete HTTP status error on the stream
fetch is logged and the call still produces the finalized path. -/
theorem audio_stream_error_handling_amended_witness :
    audio_stream (fun _ => some NetError.httpStatus) manifestPlainParsed "tmp" =
      (Ev.logErr NetError.httpStatus :: (audio_finalize manifestPlainParsed "tmp").1,
        Except.ok (audio_finalize manifestPlainParsed "tmp").2) :=
  audio_stream_error_handling_amended.1 (fun _ => some NetError.httpStatus)
    manifestPlainParsed "tmp" rfl

/-! ## Download.items (download.py lines 278-348)

`items` resolves the container, cross-renders template and base path,
lists the children, and then iterates them under a list-level progress
task sized to the child count.  The outer `while not progress.finished`
loop exits after the single pass over the children (each child advances the
task once, so after the pass the completed count equals the total; an empty
listing is finished immediately), so the observable trace is that of one
pass.  The per-child call to `self.item` is abstracted as `itemFn`,
returning the (download occurred, path) pair; after each child whose
download occurred, when the delay flag is set, a debug line is logged and
the process sleeps for `round(uniform(2, 5), 1)` seconds — the successive
draws of the system RNG are abstracted as `rand`, in tenths of a second. -/

/-- The debug line logged before each throttle sleep. -/
def delayMsg (t : Nat) : String :=
  "Next download will start in " ++ toString (t / 10) ++ "." ++ toString (t % 10) ++ " seconds."

/-- The for-loop body of `Download.items`: one child per step, a sleep after
each successful download when the delay flag is set; `k` counts the RNG
draws consumed so far. -/
def itemsPass (itemFn : Nat → Media → Bool × String) (download_delay : Bool)
    (rand : Nat → Nat) : List (Nat × Media) → Nat → List Ev
  | [], _ => []
  | (i, m) :: rest, k =>
    Ev.itemCall i m.id ::
      (if download_delay && (itemFn i m).1 then
        Ev.debugMsg (delayMsg (rand k)) :: Ev.sleepEv (rand k) ::
          itemsPass itemFn download_delay rand rest (k + 1)
      else itemsPass itemFn download_delay rand rest k)

/-- Embeds the child iteration of `Download.items` over a resolved child
listing. -/
def items (itemFn : Nat → Media → Bool × String) (children : List Media)
    (download_delay : Bool) (rand : Nat → Nat) : List Ev :=
  itemsPass itemFn download_delay rand children.enum 0

/-- The claim-side trace shape: per child in listing order one download
attempt, followed by a throttle delay exactly when that child's download
occurred. -/
def delayedTrace (rand : Nat → Nat) : List (Nat × String × Bool) → Nat → List Ev
  | [], _ => []
  | (i, id, ok) :: rest, k =>
    Ev.itemCall i id ::
      (if ok then
        Ev.debugMsg (delayMsg (rand k)) :: Ev.sleepEv (rand k) :: delayedTrace rand rest (k + 1)
      else delayedTrace rand rest k)

/-- The download attempts of a trace, in order. -/
def itemCallsOf : List Ev → List (Nat × String)
  | [] => []
  | Ev.itemCall i id :: rest => (i, id) :: itemCallsOf rest
  | _ :: rest => itemCallsOf rest

/-- The sleep durations of a trace (tenths of a second), in order. -/
def sleepsOf : List Ev → List Nat
  | [] => []
  | Ev.sleepEv t :: rest => t :: sleepsOf rest
  | _ :: rest => sleepsOf rest

theorem itemsPass_calls (f : Nat → Media → Bool × String) (dd : Bool) (rand : Nat → Nat) :
    ∀ (l : List (Nat × Media)) (k : Nat),
      itemCallsOf (itemsPass f dd rand l k) = l.map (fun p => (p.1, p.2.id)) := by
  intro l
  induction l with
  | nil => intro k; rfl
  | cons p rest ih =>
    intro k
    obtain ⟨i, m⟩ := p
    unfold itemsPass
    by_cases h : dd && (f i m).1
    · rw [if_pos h]
      simp [itemCallsOf, ih]
    · rw [if_neg h]
      simp [itemCallsOf, ih]

theorem itemsPass_delayed (f : Nat → Media → Bool × String) (rand : Nat → Nat) :
    ∀ (l : List (Nat × Media)) (k : Nat),
      itemsPass f true rand l k =
        delayedTrace rand (l.map (fun p => (p.1, p.2.id, (f p.1 p.2).1))) k := by
  intro l
  induction l with
  | nil => intro k; rfl
  | cons p rest ih =>
    intro k
    obtain ⟨i, m⟩ := p
    unfold itemsPass
    simp only [List.map_cons]
    unfold delayedTrace
    by_cases h : (f i m).1
    · simp [h, ih]
    · simp [h, ih]

theorem itemsPass_sleeps_rand (f : Nat → Media → Bool × String) (rand : Nat → Nat) :
    ∀ (l : List (Nat × Media)) (k : Nat) (t : Nat),
      t ∈ sleepsOf (itemsPass f true rand l k) → ∃ j, t = rand j := by
  intro l
  induction l with
  | nil => intro k t h; simp [itemsPass, sleepsOf] at h
  | cons p rest ih =>
    intro k t h
    obtain ⟨i, m⟩ := p
    unfold itemsPass at h
    by_cases hc : (f i m).1
    · simp only [hc, Bool.and_self, if_pos] at h
      simp [sleepsOf] at h
      rcases h with h | h
      · exact ⟨k, h⟩
      · exact ih (k + 1) t (by simpa [sleepsOf] using h)
    · simp only [hc, Bool.and_false, if_neg] at h
      exact ih k t (by simpa [sleepsOf] using h)

theorem itemsPass_no_delay (f : Nat → Media → Bool × String) (rand : Nat → Nat) :
    ∀ (l : List (Nat × Media)) (k : Nat), sleepsOf (itemsPass f false rand l k) = [] := by
  intro l
  induction l with
  | nil => intro k; rfl
  | cons p rest ih =>
    intro k
    obtain ⟨i, m⟩ := p
    unfold itemsPass
    simp [sleepsOf, ih]

/-- C7: for a container with N children, `items` attempts exactly N
single-item downloads, one per child in listing order; with the delay flag
set the trace is exactly one attempt per child followed by a throttle sleep
after each download that actually occurred (and only after those), every
sleep duration is a draw of the RNG and hence lies in [2.0, 5.0] seconds
(here in tenths: between 20 and 50), and with the flag unset no sleep
occurs at all. -/
theorem items_batch_order_and_throttle :
    (∀ f ch dd rand, itemCallsOf (items f ch dd rand) = ch.enum.map (fun p => (p.1, p.2.id)))
    ∧ (∀ f ch rand, items f ch true rand =
        delayedTrace rand (ch.enum.map (fun p => (p.1, p.2.id, (f p.1 p.2).1))) 0)
    ∧ (∀ f ch rand t, (∀ k, 20 ≤ rand k ∧ rand k ≤ 50) →
        t ∈ sleepsOf (items f ch true rand) → 20 ≤ t ∧ t ≤ 50)
    ∧ (∀ f ch rand, sleepsOf (items f ch false rand) = []) := by
  refine ⟨?_, ?_, ?_, ?_⟩
  · intro f ch dd rand
    exact itemsPass_calls f dd rand ch.enum 0
  · intro f ch rand
    exact itemsPass_delayed f rand ch.enum 0
  · intro f ch rand t hr ht
    obtain ⟨j, hj⟩ := itemsPass_sleeps_rand f rand ch.enum 0 t ht
    exact hj ▸ hr j
  · intro f ch rand
    exact itemsPass_no_delay f rand ch.enum 0

/-- A constant RNG draw of 3.0 seconds (30 tenths). -/
def rand30 : Nat → Nat := fun _ => 30

/-- Witness for C7: a concrete one-child batch with a constant RNG draw of
3.0 seconds sleeps within the required range. -/
theorem items_batch_order_and_throttle_witness : 20 ≤ rand30 0 ∧ rand30 0 ≤ 50 :=
  items_batch_order_and_throttle.2.2.1 (fun _ _ => (true, "")) [trackMedia0]
    rand30 (rand30 0) (fun k => by simp [rand30]) (by decide)

/-! ## Session lifecycle (interface.py lines 16-64)

The module-level global `tidal` starts bound to `None`.  `getSession` logs
in only when it is `None`; `endSession` executes `del tidal.session` and
then `del tidal`, which removes the global binding itself, so a later read
of `tidal` raises `NameError` (Python semantics of `del` on a global).
The external login of the `Tidal` wrapper (config module, outside the
excerpt) is modelled as always producing the supplied session id. -/

/-- The state of the module-level `tidal` global: bound to None, bound to
an active session wrapper, or deleted after a teardown. -/
inductive TidalVar where
  | unbound
  | noneV
  | activeV (sid : Nat)
deriving DecidableEq, Repr

/-- Embeds `getSession` (interface.py lines 36-47): with a session already
active it does nothing and returns None; otherwise it logs in, logs the
credential path and expiry margin, stores the wrapper and returns it. -/
def getSession (st : TidalVar) (newSid : Nat) : Except PyErr (TidalVar × List Ev × Option Nat) :=
  match st with
  | TidalVar.unbound => Except.error (PyErr.nameErr "tidal")
  | TidalVar.activeV _ => Except.ok (st, [], none)
  | TidalVar.noneV =>
    Except.ok (TidalVar.activeV newSid,
      [Ev.loginEv, Ev.info "Logged in, with credentials at the session file path",
        Ev.info "seconds before expiration"],
      some newSid)

/-- Embeds `endSession` (interface.py lines 49-56): prints a notice when the
global is None; otherwise deletes the wrapped session and then the global
binding itself. -/
def endSession (st : TidalVar) : Except PyErr (TidalVar × List Ev) :=
  match st with
  | TidalVar.unbound => Except.error (PyErr.nameErr "tidal")
  | TidalVar.noneV => Except.ok (st, [Ev.printMsg "Maybe you haven\x27t started a session."])
  | TidalVar.activeV _ => Except.ok (TidalVar.unbound, [])

/-- Embeds `logout` (interface.py lines 58-64): prints a notice when the
global is None; otherwise invokes the service logout, leaving the global
bound. -/
def logout (st : TidalVar) : Except PyErr (TidalVar × List Ev) :=
  match st with
  | TidalVar.unbound => Except.error (PyErr.nameErr "tidal")
  | TidalVar.noneV => Except.ok (st, [Ev.printMsg "Maybe you haven\x27t started a session."])
  | TidalVar.activeV _ => Except.ok (st, [Ev.logoutEv])

/-- Counterexample to C8 as stated: run `getSession`, then `endSession`,
then `endSession` again.  The second `endSession` is a teardown call with
no session active, yet it raises a `NameError` instead of logging the
notice — `del tidal` removed the global binding, so the guard
`if tidal is None` itself fails. -/
theorem session_teardown_counterexample :
    getSession TidalVar.noneV 1 =
      Except.ok (TidalVar.activeV 1,
        [Ev.loginEv, Ev.info "Logged in, with credentials at the session file path",
          Ev.info "seconds before expiration"], some 1)
    ∧ endSession (TidalVar.activeV 1) = Except.ok (TidalVar.unbound, [])
    ∧ endSession TidalVar.unbound = Except.error (PyErr.nameErr "tidal")
    ∧ logout TidalVar.unbound = Except.error (PyErr.nameErr "tidal") := by
  refine ⟨rfl, rfl, rfl, rfl⟩

/-- C8 amended: a second `getSession` while a session is active performs no
login and returns nothing, leaving the session unchanged; `endSession` or
`logout` before any session was ever started (the global still bound to
None) log the notice and do nothing further, raising no error; but
`endSession` on an active session deletes the global binding itself, so a
subsequent `endSession` or `logout` raises a `NameError` rather than
logging the notice. -/
theorem session_lifecycle_amended :
    (∀ sid sid2, getSession (TidalVar.activeV sid) sid2 =
        Except.ok (TidalVar.activeV sid, [], none))
    ∧ endSession TidalVar.noneV =
        Except.ok (TidalVar.noneV, [Ev.printMsg "Maybe you haven\x27t started a session."])
    ∧ logout TidalVar.noneV =
        Except.ok (TidalVar.noneV, [Ev.printMsg "Maybe you haven\x27t started a session."])
    ∧ (∀ sid, endSession (TidalVar.activeV sid) = Except.ok (TidalVar.unbound, []))
    ∧ endSession TidalVar.unbound = Except.error (PyErr.nameErr "tidal")
    ∧ logout TidalVar.unbound = Except.error (PyErr.nameErr "tidal") := by
  exact ⟨fun sid sid2 => rfl, rfl, rfl, fun sid => rfl, rfl, rfl⟩

/-! ## initConfig (interface.py lines 21-34)

`initConfig` computes the file "extension" as the slice of the name after
`rfind('.') + 1` — for a dotless name `rfind` is -1 and the slice is the
whole name — asserts it equals "toml", parses the file with `tomllib.load`
(re-raising a decode error after annotating it with the TOML-spec hint),
and rebuilds the process-wide settings data from the document's
`config.tidal-dl` table, returning the raw document.  The external TOML
parser is an oracle (`parseResult`), the external `ModelSettings`
constructor is the oracle `mkSettings`, and the previous settings value
`prev` is an explicit argument to show it does not influence the result. -/

/-- A TOML value: a table or a scalar (scalars are opaque strings here). -/
inductive TomlVal where
  | table (kvs : List (String × TomlVal))
  | strV (s : String)

/-- Table lookup (TOML tables have unique keys). -/
def lookupToml : List (String × TomlVal) → String → Option TomlVal
  | [], _ => none
  | (k', v) :: rest, k => if k' = k then some v else lookupToml rest k

/-- Index of the last occurrence of '.' (Python `str.rfind` semantics,
`none` for -1). -/
def lastDotIdx (l : List Char) : Option Nat :=
  l.enum.foldl (fun acc p => if p.2 = '.' then some p.1 else acc) none

/-- `config.name[config.name.rfind('.') + 1 :]` — the substring after the
last dot, or the whole name when no dot occurs. -/
def fileExtension (name : String) : String :=
  match lastDotIdx name.data with
  | some i => String.mk (name.data.drop (i + 1))
  | none => name

/-- The conventional file extension (as `pathlib.Path(...).suffix` without
its dot): empty for a dotless name.  This is the claim-side reading of
"file extension". -/
def pathSuffix (name : String) : String :=
  match lastDotIdx name.data with
  | some i => String.mk (name.data.drop (i + 1))
  | none => ""

/-- Embeds `initConfig`: the extension assertion, then the parse attempt
(recorded as an event), the decode-error re-raise carrying the TOML-spec
hint, and on success the full replacement of the settings data from the
`config.tidal-dl` table together with the returned raw document. -/
def initConfig {α : Type} (name : String)
    (parseResult : Except Unit (List (String × TomlVal)))
    (mkSettings : TomlVal → α) (prev : α) :
    List Ev × Except PyErr (List (String × TomlVal) × α) :=
  if fileExtension name = "toml" then
    ([Ev.parseAttempt],
      match parseResult with
      | Except.error _ => Except.error (PyErr.tomlErr true)
      | Except.ok doc =>
        match lookupToml doc "config" with
        | some (TomlVal.table sub) =>
          match lookupToml sub "tidal-dl" with
          | some tbl => Except.ok (doc, mkSettings tbl)
          | none => Except.error (PyErr.keyError "tidal-dl")
        | some (TomlVal.strV _) => Except.error PyErr.typeError
        | none => Except.error (PyErr.keyError "config"))
  else ([], Except.error PyErr.assertionErr)

/-- A concrete minimal TOML document with a `config.tidal-dl` table. -/
def tomlDoc0 : List (String × TomlVal) :=
  [("config", TomlVal.table [("tidal-dl", TomlVal.table [])])]

/-- Counterexample to C9 as stated: the path "toml" — a dotless file name,
whose file extension in the conventional sense is empty, not "toml" —
passes the assertion (the `rfind`+1 slice of a dotless name is the whole
name) and loading proceeds to the parse attempt and succeeds, instead of
failing with the invalid-format error before any parse attempt. -/
theorem initConfig_extension_counterexample :
    pathSuffix "toml" ≠ "toml"
    ∧ initConfig "toml" (Except.ok tomlDoc0) (fun t => t) (TomlVal.table []) =
        ([Ev.parseAttempt], Except.ok (tomlDoc0, TomlVal.table [])) := by
  refine ⟨by decide, rfl⟩

/-- C9 amended: `initConfig` checks the substring of the file name after
its last dot — or the entire name when it contains no dot, so a dotless
file named exactly "toml" is accepted.  Whenever that substring differs
from "toml" loading fails with the assertion error before any parse
attempt; a file passing the check whose contents are not valid TOML fails
with the malformed-document error carrying the TOML-spec hint; and on
success the settings data is rebuilt solely from the document's
`config.tidal-dl` table — independent of the previously active settings —
and the raw parsed document is returned. -/
theorem initConfig_amended :
    (∀ (α : Type) (name : String) parseResult (mkSettings : TomlVal → α) prev,
      fileExtension name ≠ "toml" →
      initConfig name parseResult mkSettings prev = ([], Except.error PyErr.assertionErr))
    ∧ fileExtension "toml" = "toml"
    ∧ (∀ (α : Type) (name : String) (mkSettings : TomlVal → α) prev,
        fileExtension name = "toml" →
        initConfig name (Except.error ()) mkSettings prev =
          ([Ev.parseAttempt], Except.error (PyErr.tomlErr true)))
    ∧ (∀ (α : Type) (name : String) doc sub tbl (mkSettings : TomlVal → α) prev,
        fileExtension name = "toml" →
        lookupToml doc "config" = some (TomlVal.table sub) →
        lookupToml sub "tidal-dl" = some tbl →
        initConfig name (Except.ok doc) mkSettings prev =
          ([Ev.parseAttempt], Except.ok (doc, mkSettings tbl))) := by
  refine ⟨?_, rfl, ?_, ?_⟩
  · intro α name pr mk prev h
    unfold initConfig
    rw [if_neg h]
  · intro α name mk prev h
    unfold initConfig
    rw [if_pos h]
  · intro α name doc sub tbl mk prev h h1 h2
    unfold initConfig
    rw [if_pos h]
    simp [h1, h2]

/-- Witness for C9 amended: the concrete name "cfg.toml" with the minimal
document replaces the settings from its `config.tidal-dl` table. -/
theorem initConfig_amended_witness :
    initConfig "cfg.toml" (Except.ok tomlDoc0) (fun t => t) (TomlVal.strV "old") =
      ([Ev.parseAttempt], Except.ok (tomlDoc0, TomlVal.table [])) :=
  initConfig_amended.2.2.2 TomlVal "cfg.toml" tomlDoc0
    [("tidal-dl", TomlVal.table [])] (TomlVal.table []) (fun t => t)
    (TomlVal.strV "old") rfl rfl rfl

/-! ## Interface-layer download (interface.py lines 66-96) -/

/-- The names defined at module level in interface.py: its imports and its
own globals and functions.  `auxLogger`, referenced at the `Download`
construction site, is not among them. -/
def interfaceGlobals : List String :=
  ["tomllib", "SequenceMatcher", "Path", "random", "sleep", "time", "Any", "Callable",
    "List", "Literal", "Optional", "Union", "Settings", "Tidal", "Download",
    "items_results_all", "LoggerWrapped", "ModelSettings", "Album", "Artist", "Mix",
    "Playlist", "Track", "SearchResults", "charCount", "lastSearch", "tidal",
    "settings", "logger", "initConfig", "getSession", "endSession", "logout",
    "download", "getChildren"]

/-- Python global-name resolution in the interface module. -/
def resolveGlobal (n : String) : Except PyErr Unit :=
  if interfaceGlobals.contains n then Except.ok () else Except.error (PyErr.nameErr n)

/-- Embeds the interface layer's `download` command.  With no active
session it prints the notice and returns nothing.  With an active session
the line `dl = Download(tidal.session, folder.absolute().as_posix(),
auxLogger)` runs before the dispatch on `typeName`; its arguments are
evaluated first and resolving the global name `auxLogger` fails with
`NameError` (and were the name defined, the three-positional-argument call
against `Download.__init__(self, session, skip_existing=...)` of
download.py lines 52-54 would raise a `TypeError`), so the `match` over
`typeName` — and any item download — is never reached. -/
def downloadCmd (st : TidalVar) (typeName : String) : List Ev × Except PyErr (Option Bool) :=
  match st with
  | TidalVar.unbound => ([], Except.error (PyErr.nameErr "tidal"))
  | TidalVar.noneV =>
    ([Ev.printMsg "Maybe you haven\x27t started a session."], Except.ok none)
  | TidalVar.activeV _ =>
    match resolveGlobal "auxLogger" with
    | Except.error e => ([], Except.error e)
    | Except.ok _ => ([], Except.error PyErr.typeError)

/-- Counterexample to C10 as stated: with an active session, an
unrecognized typeName such as "playlist" does not complete normally with
the value False — the undefined-name failure at the `Download`
construction site precedes the dispatch, so this path too raises
`NameError` before returning. -/
theorem interface_download_counterexample :
    downloadCmd (TidalVar.activeV 1) "playlist" =
      ([], Except.error (PyErr.nameErr "auxLogger"))
    ∧ (Except.error (PyErr.nameErr "auxLogger") : Except PyErr (Option Bool)) ≠
        Except.ok (some false) := by
  refine ⟨rfl, by simp⟩

/-- C10 amended: with an active session, `download` fails with the
undefined-name error for `auxLogger` for every typeName — recognized or
not — before any item download is performed (the trace is empty); only the
no-session path completes normally, printing the notice and returning
nothing. -/
theorem interface_download_amended :
    (∀ sid typeName, downloadCmd (TidalVar.activeV sid) typeName =
        ([], Except.error (PyErr.nameErr "auxLogger")))
    ∧ (∀ typeName, downloadCmd TidalVar.noneV typeName =
        ([Ev.printMsg "Maybe you haven\x27t started a session."], Except.ok none))
    ∧ interfaceGlobals.contains "auxLogger" = false := by
  exact ⟨fun sid tn => rfl, fun tn => rfl, by decide⟩
